import Mathlib

/-!
Shallow embedding of the `code-radio-cli` streaming radio client (`src/main.rs`)
and the contracts of its collaborator modules, with theorems checking the
natural-language specification against the code.

Machine integers are modelled as `Nat`/`Int` with explicit wrapping where the
source casts (`as u64` on an `i64` is a two's-complement reinterpretation,
modelled as `x % 2^64` on `Int`).
-/

namespace CodeRadio

/-- `u64::MAX`. -/
def u64MAX : Nat := 2 ^ 64 - 1

/-- Rust `x as u64` on an `i64` value: two's-complement reinterpretation. -/
def i64_as_u64 (x : Int) : Nat := (x % ((2 : Int) ^ 64)).toNat

/-- A station descriptor (`model::Remote`): identity is `id`. -/
structure Remote where
  id : Int
  name : String
  url : String
deriving DecidableEq, Repr

/-- A fallback mount point (`model::Mount`), carrying the same descriptor data. -/
structure Mount where
  id : Int
  name : String
  url : String
deriving DecidableEq, Repr

/-- Modelled from the spec: `model.rs` is not under `src/`, so the
`Mount -> Remote` conversion used by `mount.clone().into()` is taken from spec
section 3, which says both sources merge into `StationDescriptor { id, name, url }`:
the conversion carries the descriptor fields over. -/
def Mount.intoRemote (m : Mount) : Remote :=
  { id := m.id, name := m.name, url := m.url }

/-- The song part of a now-playing snapshot. -/
structure Song where
  id : String
  title : String
  artist : String
  album : String
deriving DecidableEq, Repr

/-- `now_playing`: song plus elapsed and total seconds (`duration` may be 0 = unknown). -/
structure NowPlaying where
  song : Song
  elapsed : Int
  duration : Int
deriving DecidableEq, Repr

/-- The station part of a metadata message. -/
structure StationInfo where
  listen_url : String
  remotes : List Remote
  mounts : List Mount
deriving DecidableEq, Repr

/-- Listener statistics. -/
structure Listeners where
  current : Int
deriving DecidableEq, Repr

/-- One parsed websocket metadata message (`model::CodeRadioMessage`). -/
structure CodeRadioMessage where
  station : StationInfo
  now_playing : NowPlaying
  listeners : Listeners
deriving DecidableEq, Repr

/-- The comparison used by `sort_by_key(|s| s.id)`: ascending station id. -/
def remoteLE (a b : Remote) : Bool :=
  decide (a.id ≤ b.id)

/-- `get_stations_from_api_message`: push all `remotes`, then all converted
`mounts`, then `sort_by_key(|s| s.id)` (a stable sort by station id). -/
def get_stations_from_api_message (message : CodeRadioMessage) : List Remote :=
  let stations : List Remote :=
    message.station.remotes ++ message.station.mounts.map Mount.intoRemote
  stations.mergeSort remoteLE

/-- The reconnect loop of `get_next_websocket_message`. `attempts k` is the
outcome of the k-th call (0-based) to `reconnect_websocket_and_get_next_message`.
Mirrors the source: `retry_count` starts at 3; on success return the message;
on failure decrement `retry_count`, return the error if it reached 0, otherwise
sleep one second and retry. Returns the result together with the number of
reconnect attempts performed and the number of backoff sleeps. -/
def reconnect_retry_loop (attempts : Nat → Except String CodeRadioMessage) :
    Nat → Nat → Except String CodeRadioMessage × Nat × Nat
  | idx, retry_count =>
    match attempts idx with
    | Except.ok result => (Except.ok result, 1, 0)
    | Except.error error =>
      if h : retry_count - 1 = 0 then
        (Except.error error, 1, 0)
      else
        let rest := reconnect_retry_loop attempts (idx + 1) (retry_count - 1)
        (rest.1, rest.2.1 + 1, rest.2.2 + 1)
termination_by _ retry_count => retry_count
decreasing_by simp_wf; omega

/-- `get_next_websocket_message`: if the pending frame yields a parsed message
(`next_frame = some m`, collapsing the nested `Some(Ok(..))`/`into_text`/parse
successes), return it with no reconnect attempts; otherwise enter the reconnect
loop with `retry_count = 3`. -/
def get_next_websocket_message (next_frame : Option CodeRadioMessage)
    (attempts : Nat → Except String CodeRadioMessage) :
    Except String CodeRadioMessage × Nat × Nat :=
  match next_frame with
  | some message => (Except.ok message, 0, 0)
  | none => reconnect_retry_loop attempts 0 3

/-- The observable state of the terminal progress bar (length, position,
prefix string and trailing message), as set by `update_song_info_on_screen`. -/
structure ProgressBarModel where
  length : Nat
  position : Nat
  preffix : String
  message : String
deriving DecidableEq, Repr

/-- The display-layer state threaded through the message loop:
`last_song_id` and the optional current progress bar (`PROGRESS_BAR`). -/
structure DisplayState where
  last_song_id : String
  progress_bar : Option ProgressBarModel
deriving DecidableEq, Repr

/-- `get_progress_bar_prefix`: "Volume n/9", with `*` when there is no player. -/
def get_progress_bar_prefix (volume : Option Nat) : String :=
  let volume_char : String :=
    match volume with
    | none => "*"
    | some v => toString v
  "Volume " ++ volume_char ++ "/9"

/-- `get_progress_bar_suffix`: the listener-count message. -/
def get_progress_bar_suffix (listener_count : Int) : String :=
  "Listeners: " ++ toString listener_count

/-- Zero-pad a number to two digits. -/
def pad2 (n : Nat) : String :=
  if n < 10 then "0" ++ toString n else toString n

/-- Modelled from the spec: `utils.rs` is not under `src/`. Per the source
comment in `main.rs` ("01:14 / 05:14"), seconds are rendered as zero-padded
minutes and seconds. -/
def humanize_seconds_to_minutes_and_seconds (seconds : Nat) : String :=
  pad2 (seconds / 60) ++ ":" ++ pad2 (seconds % 60)

/-- `get_progress_bar_progress_info`: "elapsed / total" when the bar length is
known and not the `u64::MAX` sentinel, otherwise just "elapsed". -/
def get_progress_bar_progress_info (elapsed_seconds : Nat)
    (total_seconds : Option Nat) : String :=
  let humanized_elapsed_duration :=
    humanize_seconds_to_minutes_and_seconds elapsed_seconds
  match total_seconds with
  | some total_seconds =>
    if total_seconds ≠ u64MAX then
      humanized_elapsed_duration ++ " / " ++
        humanize_seconds_to_minutes_and_seconds total_seconds
    else
      humanized_elapsed_duration
  | none => humanized_elapsed_duration

/-- `update_song_info_on_screen`: if the message's song id differs from
`last_song_id`, print the new song's info, create a fresh progress bar (length
is the duration, or the `u64::MAX` sentinel when the duration is not positive;
position is the elapsed seconds) and store the new song id; otherwise only set
the existing bar's position and listener-count message. `volume` is the current
player volume (`None` when the audio device is absent). Returns the updated
display state and the printed lines. -/
def update_song_info_on_screen (volume : Option Nat) (message : CodeRadioMessage)
    (st : DisplayState) : DisplayState × List String :=
  let song := message.now_playing.song
  let elapsed_seconds := message.now_playing.elapsed
  let total_seconds := message.now_playing.duration
  let progress_bar_preffix := get_progress_bar_prefix volume
  let progress_bar_suffix := get_progress_bar_suffix message.listeners.current
  if song.id ≠ st.last_song_id then
    let progress_bar_len : Nat :=
      if total_seconds > 0 then i64_as_u64 total_seconds else u64MAX
    let progress_bar : ProgressBarModel :=
      { length := progress_bar_len
        position := i64_as_u64 elapsed_seconds
        preffix := progress_bar_preffix
        message := progress_bar_suffix }
    ({ last_song_id := song.id, progress_bar := some progress_bar },
      ["",
       "Song:       " ++ song.title,
       "Artist:     " ++ song.artist,
       "Album:      " ++ song.album])
  else
    match st.progress_bar with
    | some progress_bar =>
      ({ st with
          progress_bar := some { progress_bar with
            position := i64_as_u64 elapsed_seconds
            message := progress_bar_suffix } },
        [])
    | none => (st, [])

/-- Modelled from the spec: `player.rs` is not under `src/`. Per spec section
4.2 the player holds the last-set volume level (`volume() -> u8` returns it,
`set_volume` updates it) and `play(url)` replaces the currently playing
station. -/
structure Player where
  volume : Nat
  playing : Option String
deriving DecidableEq, Repr

/-- `Player::set_volume`. -/
def Player.set_volume (p : Player) (v : Nat) : Player :=
  { p with volume := v }

/-- `Player::play`. -/
def Player.play (p : Player) (url : String) : Player :=
  { p with playing := some url }

/-- Modelled from the spec: `player.rs` is not under `src/`. Spec sections 4.2
and 8 require the 0-9 volume level to map to a monotonic, deterministic gain
with level 0 minimal and level 9 maximal; modelled as the linear curve
level / 9. -/
def volume_to_gain (level : Nat) : Rat :=
  (level : Rat) / 9

/-- Rust `char::to_digit(10)`. -/
def char_to_digit (c : Char) : Option Nat :=
  if c.toNat ≥ 48 ∧ c.toNat ≤ 57 then some (c.toNat - 48) else none

/-- One iteration of `handle_keyboard_events` for a read character: if it is a
digit and a player exists, skip everything when the digit equals the player's
current volume; otherwise set the volume and refresh the progress-bar prefix. -/
def handle_keyboard_key (c : Char) (player : Option Player)
    (progress_bar : Option ProgressBarModel) :
    Option Player × Option ProgressBarModel :=
  match char_to_digit c with
  | none => (player, progress_bar)
  | some n =>
    match player with
    | none => (player, progress_bar)
    | some p =>
      if p.volume = n then
        (player, progress_bar)
      else
        (some (p.set_volume n),
          match progress_bar with
          | some pb => some { pb with preffix := get_progress_bar_prefix (some n) }
          | none => progress_bar)

/-- CLI arguments relevant to the core. Modelled from the spec: `args.rs` is
not under `src/`; `main.rs` uses the fields `volume`, `select_station` and
`no_logo`. -/
structure Args where
  volume : Nat
  select_station : Bool
  no_logo : Bool
deriving DecidableEq, Repr

/-- The mutable state of the `start_playing` message loop: `listen_url` and
`last_song_id` locals, the global `PLAYER`, and the list of URLs passed to
`Player::play` (in order). -/
structure LoopState where
  listen_url : Option String
  display : DisplayState
  player : Option Player
  played : List String
deriving DecidableEq, Repr

/-- One iteration of the `start_playing` loop body for a received message.
If `listen_url` is still `None` (first message): derive the station list,
choose the URL (from the user's selection when present, failing with
"Station with ID ... not found" when the id is absent; otherwise the message's
`station.listen_url`), invoke `Player::play` on it when a player exists, and
record it in `listen_url`. In every iteration, run
`update_song_info_on_screen`. -/
def start_playing_step (selected_station : Option Remote)
    (message : CodeRadioMessage) (st : LoopState) : Except String LoopState :=
  let after_start : Except String LoopState :=
    match st.listen_url with
    | some _ => Except.ok st
    | none =>
      let stations := get_stations_from_api_message message
      let listen_url_value : Except String String :=
        match selected_station with
        | some station =>
          match stations.find? (fun s => decide (s.id = station.id)) with
          | some s => Except.ok s.url
          | none =>
            Except.error
              ("Station with ID \"" ++ toString station.id ++ "\" not found")
        | none => Except.ok message.station.listen_url
      match listen_url_value with
      | Except.error e => Except.error e
      | Except.ok url =>
        Except.ok { st with
          player := st.player.map (fun p => p.play url)
          played :=
            match st.player with
            | some _ => st.played ++ [url]
            | none => st.played
          listen_url := some url }
  match after_start with
  | Except.error e => Except.error e
  | Except.ok st1 =>
    Except.ok { st1 with
      display :=
        (update_song_info_on_screen (st1.player.map Player.volume) message
          st1.display).1 }

/-- The `start_playing` message loop over a finite prefix of received
messages; on an error the state reached so far is returned together with the
error (which `start_playing` propagates to `start`). -/
def start_playing_loop (selected_station : Option Remote) :
    List CodeRadioMessage → LoopState → LoopState × Option String
  | [], st => (st, none)
  | message :: rest, st =>
    match start_playing_step selected_station message st with
    | Except.error e => (st, some e)
    | Except.ok st1 => start_playing_loop selected_station rest st1

/-- The initial display state (`last_song_id` empty, no progress bar). -/
def initialDisplay : DisplayState :=
  { last_song_id := "", progress_bar := none }

/-- `start_playing`: resolve the station selection (only when
`args.select_station` is set), initialize the player (`Player::try_new`) —
on success set its volume from `args`, on failure print the error and continue
with `PLAYER = None` — then run the message loop. `player_init` is the outcome
of `Player::try_new`; `messages` is the sequence of websocket messages. -/
def start_playing (args : Args) (selected_station : Option Remote)
    (player_init : Except String Player) (messages : List CodeRadioMessage) :
    LoopState × Option String :=
  let selected : Option Remote :=
    if args.select_station then selected_station else none
  let player : Option Player :=
    match player_init with
    | Except.ok player => some (player.set_volume args.volume)
    | Except.error _ => none
  start_playing_loop selected messages
    { listen_url := none
      display := initialDisplay
      player := player
      played := [] }

/-- `start`: validate the volume argument (error when above 9, before anything
plays), then run `start_playing`. -/
def start (args : Args) (selected_station : Option Remote)
    (player_init : Except String Player) (messages : List CodeRadioMessage) :
    LoopState × Option String :=
  if args.volume > 9 then
    ({ listen_url := none, display := initialDisplay, player := none,
        played := [] },
      some "Volume must be between 0 and 9")
  else
    start_playing args selected_station player_init messages

/-- The display-layer run on its own: fold `update_song_info_on_screen` over
the received messages with a fixed player volume. -/
def display_run (volume : Option Nat) :
    List CodeRadioMessage → DisplayState → DisplayState
  | [], st => st
  | message :: rest, st =>
    display_run volume rest (update_song_info_on_screen volume message st).1

/-- A concrete song, for witnesses. -/
def sampleSong : Song :=
  { id := "song-1", title := "T", artist := "A", album := "B" }

/-- A second concrete song, for witnesses. -/
def sampleSong2 : Song :=
  { id := "song-2", title := "T2", artist := "A2", album := "B2" }

/-- A concrete metadata message, for witnesses. -/
def sampleMessage : CodeRadioMessage :=
  { station :=
      { listen_url := "https://listen.example/radio.mp3"
        remotes := [{ id := 1, name := "r1", url := "u1" },
                    { id := 2, name := "r2", url := "u2" }]
        mounts := [{ id := 3, name := "m1", url := "mu1" }] }
    now_playing := { song := sampleSong, elapsed := 74, duration := 314 }
    listeners := { current := 42 } }

/-- The station list derived from `sampleMessage`, for witnesses. -/
def sampleStations : List Remote :=
  [{ id := 1, name := "r1", url := "u1" },
   { id := 2, name := "r2", url := "u2" },
   { id := 3, name := "m1", url := "mu1" }]

/-- A concrete message with an unknown (zero) duration and another song. -/
def sampleMessage2 : CodeRadioMessage :=
  { station :=
      { listen_url := "https://listen.example/radio.mp3"
        remotes := []
        mounts := [] }
    now_playing := { song := sampleSong2, elapsed := 5, duration := 0 }
    listeners := { current := 7 } }

/-- A concrete progress bar, for witnesses. -/
def sampleBar : ProgressBarModel :=
  { length := 314, position := 10, preffix := "Volume 5/9",
    message := "Listeners: 3" }

/-- A concrete display state already showing `sampleSong`, for witnesses. -/
def sampleDisplay : DisplayState :=
  { last_song_id := "song-1", progress_bar := some sampleBar }

/-- A reconnect-attempt trace failing twice then succeeding, for witnesses. -/
def attemptsOkAt3 : Nat → Except String CodeRadioMessage := fun k =>
  if k = 0 then Except.error "e0"
  else if k = 1 then Except.error "e1"
  else Except.ok sampleMessage

/-- A reconnect-attempt trace failing on every attempt, for witnesses. -/
def attemptsAllFail : Nat → Except String CodeRadioMessage := fun k =>
  Except.error ("e" ++ toString k)

/-! ## Theorems -/

/-- The station comparison is transitive. -/
theorem remoteLE_trans :
    ∀ (a b c : Remote), remoteLE a b → remoteLE b c → remoteLE a c :=
  fun _ _ _ hab hbc =>
    decide_eq_true (le_trans (of_decide_eq_true hab) (of_decide_eq_true hbc))

/-- The station comparison is total. -/
theorem remoteLE_total : ∀ (a b : Remote), remoteLE a b || remoteLE b a := by
  intro a b
  unfold remoteLE
  rcases le_total a.id b.id with h | h <;> simp [h]

/-- One-step unfolding of the reconnect retry loop. -/
theorem reconnect_retry_loop_unfold
    (attempts : Nat → Except String CodeRadioMessage) (idx retry_count : Nat) :
    reconnect_retry_loop attempts idx retry_count =
      match attempts idx with
      | Except.ok result => (Except.ok result, 1, 0)
      | Except.error error =>
        if retry_count - 1 = 0 then
          (Except.error error, 1, 0)
        else
          ((reconnect_retry_loop attempts (idx + 1) (retry_count - 1)).1,
            (reconnect_retry_loop attempts (idx + 1) (retry_count - 1)).2.1 + 1,
            (reconnect_retry_loop attempts (idx + 1) (retry_count - 1)).2.2 + 1) := by
  rw [reconnect_retry_loop]
  rcases attempts idx with e | m
  · by_cases h : retry_count - 1 = 0 <;> simp [h]
  · rfl

/-- C1: metadata reconnection is bounded. When `get_next_websocket_message`
cannot obtain a parsed frame it performs at most 3 reconnect attempts with a
1-second sleep between failed attempts; a parsed frame needs no attempt;
success on attempt 1, 2 or 3 returns that message (after 0, 1 resp. 2 sleeps);
failure of all 3 attempts returns the third attempt's error after exactly 3
attempts and 2 sleeps, and the outcome never depends on attempts beyond the
third. -/
theorem reconnect_bounded_retry
    (attempts : Nat → Except String CodeRadioMessage) :
    ((∀ m, get_next_websocket_message (some m) attempts = (Except.ok m, 0, 0)) ∧
      get_next_websocket_message none attempts =
        reconnect_retry_loop attempts 0 3) ∧
    ((reconnect_retry_loop attempts 0 3).2.1 ≤ 3) ∧
    (∀ m, attempts 0 = Except.ok m →
      reconnect_retry_loop attempts 0 3 = (Except.ok m, 1, 0)) ∧
    (∀ e0 m, attempts 0 = Except.error e0 → attempts 1 = Except.ok m →
      reconnect_retry_loop attempts 0 3 = (Except.ok m, 2, 1)) ∧
    (∀ e0 e1 m, attempts 0 = Except.error e0 → attempts 1 = Except.error e1 →
      attempts 2 = Except.ok m →
      reconnect_retry_loop attempts 0 3 = (Except.ok m, 3, 2)) ∧
    (∀ e0 e1 e2, attempts 0 = Except.error e0 → attempts 1 = Except.error e1 →
      attempts 2 = Except.error e2 →
      reconnect_retry_loop attempts 0 3 = (Except.error e2, 3, 2)) ∧
    (∀ attempts2 : Nat → Except String CodeRadioMessage,
      attempts2 0 = attempts 0 → attempts2 1 = attempts 1 →
      attempts2 2 = attempts 2 →
      reconnect_retry_loop attempts2 0 3 = reconnect_retry_loop attempts 0 3) := by
  have expand : ∀ (a : Nat → Except String CodeRadioMessage),
      reconnect_retry_loop a 0 3 =
        match a 0 with
        | Except.ok m => (Except.ok m, 1, 0)
        | Except.error _ =>
          match a 1 with
          | Except.ok m => (Except.ok m, 2, 1)
          | Except.error _ =>
            match a 2 with
            | Except.ok m => (Except.ok m, 3, 2)
            | Except.error e2 => (Except.error e2, 3, 2) := by
    intro a
    rw [reconnect_retry_loop_unfold]
    rcases h0 : a 0 with e0 | m0
    · rw [show (3 : Nat) - 1 = 2 by rfl]
      simp only [if_neg (by omega : ¬ (2 : Nat) = 0)]
      rw [reconnect_retry_loop_unfold]
      rcases h1 : a 1 with e1 | m1
      · rw [show (2 : Nat) - 1 = 1 by rfl]
        simp only [if_neg (by omega : ¬ (1 : Nat) = 0)]
        rw [reconnect_retry_loop_unfold]
        rcases h2 : a 2 with e2 | m2
        · rw [show (1 : Nat) - 1 = 0 by rfl]
          simp
        · simp
      · simp
    · simp
  refine ⟨⟨fun m => rfl, rfl⟩, ?_, ?_, ?_, ?_, ?_, ?_⟩
  · rw [expand]
    rcases attempts 0 with e0 | m0
    · rcases attempts 1 with e1 | m1
      · rcases attempts 2 with e2 | m2 <;> simp
      · simp
    · simp
  · intro m h0
    rw [expand, h0]
  · intro e0 m h0 h1
    rw [expand, h0, h1]
  · intro e0 e1 m h0 h1 h2
    rw [expand, h0, h1, h2]
  · intro e0 e1 e2 h0 h1 h2
    rw [expand, h0, h1, h2]
  · intro attempts2 h0 h1 h2
    rw [expand, expand, h0, h1, h2]

/-- Witness for C1: a trace failing on attempts 1 and 2 and succeeding on
attempt 3 ends with the message after 3 attempts and 2 sleeps; a trace failing
on all attempts ends with the third error after 3 attempts and 2 sleeps. -/
theorem reconnect_bounded_retry_witness :
    reconnect_retry_loop attemptsOkAt3 0 3 = (Except.ok sampleMessage, 3, 2) ∧
    reconnect_retry_loop attemptsAllFail 0 3 = (Except.error "e2", 3, 2) := by
  constructor
  · exact (reconnect_bounded_retry attemptsOkAt3).2.2.2.2.1 "e0" "e1"
      sampleMessage rfl rfl rfl
  · exact (reconnect_bounded_retry attemptsAllFail).2.2.2.2.2.1 "e0" "e1" "e2"
      rfl rfl rfl

/-- C2: same-song suppression. A received message is treated as a new song iff
its song id differs from `last_song_id`: then the title/artist/album lines are
printed, a fresh progress bar is created at the reported elapsed position, and
`last_song_id` becomes the new id. For an identical id nothing is printed,
`last_song_id` is unchanged, and only the bar's position and listener-count
message are updated (prefix and length untouched). -/
theorem same_song_suppression (volume : Option Nat) (message : CodeRadioMessage)
    (st : DisplayState) :
    (message.now_playing.song.id ≠ st.last_song_id →
      (update_song_info_on_screen volume message st).1.last_song_id =
        message.now_playing.song.id ∧
      (update_song_info_on_screen volume message st).1.progress_bar =
        some { length :=
                 if message.now_playing.duration > 0 then
                   i64_as_u64 message.now_playing.duration
                 else u64MAX
               position := i64_as_u64 message.now_playing.elapsed
               preffix := get_progress_bar_prefix volume
               message := get_progress_bar_suffix message.listeners.current } ∧
      (update_song_info_on_screen volume message st).2 =
        ["",
         "Song:       " ++ message.now_playing.song.title,
         "Artist:     " ++ message.now_playing.song.artist,
         "Album:      " ++ message.now_playing.song.album]) ∧
    (message.now_playing.song.id = st.last_song_id →
      (update_song_info_on_screen volume message st).1.last_song_id =
        st.last_song_id ∧
      (update_song_info_on_screen volume message st).2 = [] ∧
      (∀ pb, st.progress_bar = some pb →
        (update_song_info_on_screen volume message st).1.progress_bar =
          some { pb with
            position := i64_as_u64 message.now_playing.elapsed
            message := get_progress_bar_suffix message.listeners.current }) ∧
      (st.progress_bar = none →
        (update_song_info_on_screen volume message st).1 = st)) := by
  constructor
  · intro h
    refine ⟨?_, ?_, ?_⟩ <;> simp [update_song_info_on_screen, h]
  · intro h
    refine ⟨?_, ?_, ?_, ?_⟩
    · rcases hpb : st.progress_bar with _ | pb <;>
        simp [update_song_info_on_screen, h, hpb]
    · rcases hpb : st.progress_bar with _ | pb <;>
        simp [update_song_info_on_screen, h, hpb]
    · intro pb hpb
      simp [update_song_info_on_screen, h, hpb]
    · intro hpb
      simp [update_song_info_on_screen, h, hpb]

/-- Witness for C2: a fresh display sees `sampleMessage` as a new song; a
display already showing that song only refreshes position and listeners. -/
theorem same_song_suppression_witness :
    (sampleMessage.now_playing.song.id ≠ initialDisplay.last_song_id ∧
      (update_song_info_on_screen (some 5) sampleMessage
        initialDisplay).1.last_song_id = sampleMessage.now_playing.song.id) ∧
    (sampleMessage.now_playing.song.id = sampleDisplay.last_song_id ∧
      (update_song_info_on_screen (some 5) sampleMessage sampleDisplay).2 = [] ∧
      (update_song_info_on_screen (some 5) sampleMessage
          sampleDisplay).1.progress_bar =
        some { sampleBar with
          position := i64_as_u64 sampleMessage.now_playing.elapsed
          message := get_progress_bar_suffix sampleMessage.listeners.current }) := by
  refine ⟨⟨by decide, ?_⟩, rfl, ?_, ?_⟩
  · exact ((same_song_suppression (some 5) sampleMessage initialDisplay).1
      (by decide)).1
  · exact ((same_song_suppression (some 5) sampleMessage sampleDisplay).2
      rfl).2.1
  · exact ((same_song_suppression (some 5) sampleMessage sampleDisplay).2
      rfl).2.2.1 sampleBar rfl

/-- C3: station list derivation. The derived list is a permutation of the
message's remotes followed by its converted mounts (nothing added or dropped),
it is sorted ascending by station id, and it is a deterministic function of
the message. -/
theorem station_list_derivation (message : CodeRadioMessage) :
    (get_stations_from_api_message message).Perm
      (message.station.remotes ++ message.station.mounts.map Mount.intoRemote) ∧
    (get_stations_from_api_message message).Pairwise
      (fun a b => a.id ≤ b.id) ∧
    (∀ message2, message = message2 →
      get_stations_from_api_message message =
        get_stations_from_api_message message2) := by
  refine ⟨List.mergeSort_perm _ _, ?_, ?_⟩
  · have hdef : get_stations_from_api_message message =
        (message.station.remotes ++
            message.station.mounts.map Mount.intoRemote).mergeSort remoteLE :=
      rfl
    have h := List.sorted_mergeSort remoteLE_trans remoteLE_total
      (message.station.remotes ++ message.station.mounts.map Mount.intoRemote)
    rw [hdef]
    exact h.imp (fun hab => of_decide_eq_true hab)
  · rintro m2 rfl
    rfl

/-- Witness for C3: determinism instantiated at the sample message. -/
theorem station_list_derivation_witness :
    get_stations_from_api_message sampleMessage =
      get_stations_from_api_message sampleMessage :=
  (station_list_derivation sampleMessage).2.2 sampleMessage rfl

/-- C10: stable tie-break in station derivation. For every id `k`, the
stations of the derived list having id `k` are exactly those of
remotes-then-converted-mounts having id `k`, in that order: all remotes
before all mounts, each group in its original array order. -/
theorem station_sort_stable_tie_break (message : CodeRadioMessage) (k : Int) :
    (get_stations_from_api_message message).filter
        (fun s => decide (s.id = k)) =
      (message.station.remotes ++
          message.station.mounts.map Mount.intoRemote).filter
        (fun s => decide (s.id = k)) ∧
    (get_stations_from_api_message message).filter
        (fun s => decide (s.id = k)) =
      message.station.remotes.filter (fun s => decide (s.id = k)) ++
        (message.station.mounts.map Mount.intoRemote).filter
          (fun s => decide (s.id = k)) := by
  set l : List Remote :=
    message.station.remotes ++ message.station.mounts.map Mount.intoRemote
    with hl
  set p : Remote → Bool := fun s => decide (s.id = k) with hp
  have key : (l.mergeSort remoteLE).filter p = l.filter p := by
    have hmem : ∀ a ∈ l.filter p, p a = true := fun a ha =>
      (List.mem_filter.mp ha).2
    have hpair : (l.filter p).Pairwise
        (fun a b : Remote => remoteLE a b = true) := by
      apply List.pairwise_of_forall_mem_list
      intro a ha b hb
      have ha2 : a.id = k := by
        have := hmem a ha
        simpa [hp] using this
      have hb2 : b.id = k := by
        have := hmem b hb
        simpa [hp] using this
      simp [remoteLE, ha2, hb2]
    have hsub : List.Sublist (l.filter p) l := List.filter_sublist l
    have hst : List.Sublist (l.filter p) (l.mergeSort remoteLE) :=
      List.sublist_mergeSort remoteLE_trans remoteLE_total hpair hsub
    have hst2 : List.Sublist ((l.filter p).filter p)
        ((l.mergeSort remoteLE).filter p) :=
      hst.filter p
    rw [List.filter_filter] at hst2
    have hst3 : List.Sublist (l.filter p) ((l.mergeSort remoteLE).filter p) := by
      have hpp : (fun a => p a && p a) = p := by
        funext a
        rcases Bool.eq_false_or_eq_true (p a) with h | h <;> simp [h]
      rwa [hpp] at hst2
    have hperm : ((l.mergeSort remoteLE).filter p).Perm (l.filter p) :=
      (List.mergeSort_perm l _).filter p
    exact ((hst3.eq_of_length hperm.length_eq.symm).symm)
  have hdef : get_stations_from_api_message message = l.mergeSort remoteLE :=
    rfl
  have main : (get_stations_from_api_message message).filter p = l.filter p := by
    rw [hdef, key]
  refine ⟨main, ?_⟩
  rw [main, hl, List.filter_append]

/-- C4: unknown-duration handling. A reported duration of 0 makes the new
progress bar's length the `u64::MAX` sentinel rather than 0, and
`get_progress_bar_progress_info` renders only the elapsed time when the total
is `none` or the sentinel, while any known total `t` with `0 < t < u64::MAX`
renders "elapsed / total". -/
theorem unknown_duration_handling (elapsed t : Nat) (volume : Option Nat)
    (message : CodeRadioMessage) (st : DisplayState) :
    (get_progress_bar_progress_info elapsed none =
      humanize_seconds_to_minutes_and_seconds elapsed) ∧
    (get_progress_bar_progress_info elapsed (some u64MAX) =
      humanize_seconds_to_minutes_and_seconds elapsed) ∧
    (0 < t → t < u64MAX →
      get_progress_bar_progress_info elapsed (some t) =
        humanize_seconds_to_minutes_and_seconds elapsed ++ " / " ++
          humanize_seconds_to_minutes_and_seconds t) ∧
    (humanize_seconds_to_minutes_and_seconds 74 = "01:14") ∧
    (message.now_playing.duration = 0 →
      message.now_playing.song.id ≠ st.last_song_id →
      ∃ pb, (update_song_info_on_screen volume message st).1.progress_bar =
          some pb ∧
        pb.length = u64MAX) := by
  refine ⟨rfl, by simp [get_progress_bar_progress_info], ?_, by rfl, ?_⟩
  · intro hpos hlt
    simp [get_progress_bar_progress_info, Nat.ne_of_lt hlt]
  · intro hdur hid
    refine ⟨{ length := u64MAX
              position := i64_as_u64 message.now_playing.elapsed
              preffix := get_progress_bar_prefix volume
              message := get_progress_bar_suffix message.listeners.current },
      ?_, rfl⟩
    simp [update_song_info_on_screen, hid, hdur]

/-- Witness for C4: a known total of 314 seconds renders "elapsed / total";
`sampleMessage2` has duration 0 and yields a bar of sentinel length. -/
theorem unknown_duration_handling_witness :
    ((0 : Nat) < 314 ∧ (314 : Nat) < u64MAX ∧
      get_progress_bar_progress_info 74 (some 314) = "01:14 / 05:14") ∧
    (sampleMessage2.now_playing.duration = 0 ∧
      sampleMessage2.now_playing.song.id ≠ initialDisplay.last_song_id ∧
      ∃ pb, (update_song_info_on_screen none sampleMessage2
          initialDisplay).1.progress_bar = some pb ∧
        pb.length = u64MAX) := by
  have h314 : (314 : Nat) < u64MAX := by norm_num [u64MAX]
  refine ⟨⟨by norm_num, h314, ?_⟩, rfl, by decide, ?_⟩
  · have h := (unknown_duration_handling 74 314 none sampleMessage2
      initialDisplay).2.2.1 (by norm_num) h314
    rw [h]
    rfl
  · exact (unknown_duration_handling 74 314 none sampleMessage2
      initialDisplay).2.2.2.2 rfl (by decide)

/-- Once `listen_url` is set, a loop iteration only updates the display. -/
theorem start_playing_step_after (selected : Option Remote)
    (m : CodeRadioMessage) (u : String) (d : DisplayState)
    (pl : Option Player) (pd : List String) :
    start_playing_step selected m
        { listen_url := some u, display := d, player := pl, played := pd } =
      Except.ok
        { listen_url := some u
          display := (update_song_info_on_screen (pl.map Player.volume) m d).1
          player := pl
          played := pd } := rfl

/-- After `listen_url` is set, the rest of the loop never plays again, never
fails, and leaves `listen_url` and the player untouched. -/
theorem start_playing_loop_stable (selected : Option Remote)
    (rest : List CodeRadioMessage) :
    ∀ st u, st.listen_url = some u →
      (start_playing_loop selected rest st).1.played = st.played ∧
      (start_playing_loop selected rest st).1.listen_url = some u ∧
      (start_playing_loop selected rest st).1.player = st.player ∧
      (start_playing_loop selected rest st).2 = none := by
  induction rest with
  | nil => exact fun st u h => ⟨rfl, h, rfl, rfl⟩
  | cons m rest ih =>
    rintro ⟨lu, d, pl, pd⟩ u h
    obtain rfl : lu = some u := h
    rw [start_playing_loop, start_playing_step_after]
    exact ih _ u rfl

/-- The first loop iteration, with no station selected: play the first
message's `listen_url` (when a player exists) and record it. -/
theorem start_playing_step_first (m : CodeRadioMessage) (d : DisplayState)
    (pl : Option Player) (pd : List String) :
    start_playing_step none m
        { listen_url := none, display := d, player := pl, played := pd } =
      Except.ok
        { listen_url := some m.station.listen_url
          display :=
            (update_song_info_on_screen
              ((pl.map (fun p => p.play m.station.listen_url)).map
                Player.volume) m d).1
          player := pl.map (fun p => p.play m.station.listen_url)
          played :=
            match pl with
            | some _ => pd ++ [m.station.listen_url]
            | none => pd } := rfl

/-- The first loop iteration with a selected station whose id is found in the
derived station list: play that station's URL. -/
theorem start_playing_step_first_selected (station s : Remote)
    (m : CodeRadioMessage) (d : DisplayState) (pl : Option Player)
    (pd : List String)
    (hfind : (get_stations_from_api_message m).find?
        (fun r => decide (r.id = station.id)) = some s) :
    start_playing_step (some station) m
        { listen_url := none, display := d, player := pl, played := pd } =
      Except.ok
        { listen_url := some s.url
          display :=
            (update_song_info_on_screen
              ((pl.map (fun p => p.play s.url)).map Player.volume) m d).1
          player := pl.map (fun p => p.play s.url)
          played :=
            match pl with
            | some _ => pd ++ [s.url]
            | none => pd } := by
  simp only [start_playing_step, hfind]

/-- The first loop iteration with a selected station whose id is absent from
the derived station list: fail with the "not found" error. -/
theorem start_playing_step_first_notfound (station : Remote)
    (m : CodeRadioMessage) (d : DisplayState) (pl : Option Player)
    (pd : List String)
    (hfind : (get_stations_from_api_message m).find?
        (fun r => decide (r.id = station.id)) = none) :
    start_playing_step (some station) m
        { listen_url := none, display := d, player := pl, played := pd } =
      Except.error
        ("Station with ID \"" ++ toString station.id ++ "\" not found") := by
  simp only [start_playing_step, hfind]

/-- The station list of `sampleMessage` evaluates to `sampleStations`. -/
theorem get_stations_sampleMessage :
    get_stations_from_api_message sampleMessage = sampleStations := by
  have hs : List.Pairwise (fun a b : Remote => remoteLE a b = true)
      sampleStations := by
    decide
  exact List.mergeSort_of_sorted hs

/-- C5: playback start is gated on the first metadata message. With no
messages nothing is ever played; with a first message `m` and no station
selection, exactly `m.station.listen_url` is played (once) when the audio
device initialized, and nothing is played when it did not; with a selection,
the URL played is the one found for the selected id in the derived station
list. -/
theorem playback_gated_on_first_message (args : Args)
    (selected_station : Option Remote) (player : Player)
    (player_init : Except String Player) (e : String) (m : CodeRadioMessage)
    (rest : List CodeRadioMessage) :
    ((start_playing args selected_station player_init []).1.played = []) ∧
    (args.select_station = false →
      (start_playing args selected_station (Except.ok player)
          (m :: rest)).1.played = [m.station.listen_url]) ∧
    (args.select_station = false →
      (start_playing args selected_station (Except.error e)
          (m :: rest)).1.played = []) ∧
    (∀ station s, args.select_station = true →
      (get_stations_from_api_message m).find?
          (fun r => decide (r.id = station.id)) = some s →
      (start_playing args (some station) (Except.ok player)
          (m :: rest)).1.played = [s.url]) := by
  refine ⟨rfl, ?_, ?_, ?_⟩
  · intro hsel
    unfold start_playing
    rw [hsel]
    show (start_playing_loop none (m :: rest) _).1.played = _
    rw [start_playing_loop, start_playing_step_first]
    exact Eq.trans
      (start_playing_loop_stable none rest _ m.station.listen_url rfl).1 rfl
  · intro hsel
    unfold start_playing
    rw [hsel]
    show (start_playing_loop none (m :: rest) _).1.played = _
    rw [start_playing_loop, start_playing_step_first]
    exact Eq.trans
      (start_playing_loop_stable none rest _ m.station.listen_url rfl).1 rfl
  · intro station s hsel hfind
    unfold start_playing
    rw [hsel]
    show (start_playing_loop (some station) (m :: rest) _).1.played = _
    rw [start_playing_loop,
      start_playing_step_first_selected station s m _ _ _ hfind]
    exact Eq.trans
      (start_playing_loop_stable (some station) rest _ s.url rfl).1 rfl

/-- Witness for C5: with the sample message and no selection, exactly the
sample message's listen URL is played; with station id 1 selected, the first
matching derived station's URL is played. -/
theorem playback_gated_witness :
    (start_playing { volume := 5, select_station := false, no_logo := false }
        none (Except.ok { volume := 0, playing := none })
        [sampleMessage]).1.played = ["https://listen.example/radio.mp3"] ∧
    (start_playing { volume := 5, select_station := true, no_logo := false }
        (some { id := 1, name := "r1", url := "u1" })
        (Except.ok { volume := 0, playing := none })
        [sampleMessage]).1.played = ["u1"] := by
  constructor
  · exact (playback_gated_on_first_message
      { volume := 5, select_station := false, no_logo := false } none
      { volume := 0, playing := none } (Except.ok { volume := 0, playing := none })
      "e" sampleMessage []).2.1 rfl
  · refine (playback_gated_on_first_message
      { volume := 5, select_station := true, no_logo := false }
      (some { id := 1, name := "r1", url := "u1" })
      { volume := 0, playing := none } (Except.ok { volume := 0, playing := none })
      "e" sampleMessage []).2.2.2
      { id := 1, name := "r1", url := "u1" } { id := 1, name := "r1", url := "u1" }
      rfl ?_
    rw [get_stations_sampleMessage]
    rfl

/-- C6: startup configuration errors are fatal before streaming begins.
A requested volume above 9 makes `start` fail with the volume error and
nothing is ever played; a selected station id absent from the first message's
derived station list makes the run fail with the "not found" error, again with
nothing played. -/
theorem startup_config_errors_fatal (args : Args)
    (selected_station : Option Remote) (player_init : Except String Player)
    (msgs : List CodeRadioMessage) (station : Remote) (m : CodeRadioMessage)
    (rest : List CodeRadioMessage) :
    (args.volume > 9 →
      (start args selected_station player_init msgs).2 =
        some "Volume must be between 0 and 9" ∧
      (start args selected_station player_init msgs).1.played = []) ∧
    (args.volume ≤ 9 → args.select_station = true →
      (get_stations_from_api_message m).find?
          (fun r => decide (r.id = station.id)) = none →
      (start args (some station) player_init (m :: rest)).2 =
        some ("Station with ID \"" ++ toString station.id ++ "\" not found") ∧
      (start args (some station) player_init (m :: rest)).1.played = []) := by
  constructor
  · intro h
    unfold start
    rw [if_pos h]
    exact ⟨rfl, rfl⟩
  · intro hle hsel hfind
    unfold start
    rw [if_neg (by omega)]
    unfold start_playing
    rw [hsel]
    constructor
    · show (start_playing_loop (some station) (m :: rest) _).2 = _
      rw [start_playing_loop,
        start_playing_step_first_notfound station m _ _ _ hfind]
    · show (start_playing_loop (some station) (m :: rest) _).1.played = _
      rw [start_playing_loop,
        start_playing_step_first_notfound station m _ _ _ hfind]

/-- Witness for C6: volume 10 is rejected; selecting station id 99 against
the sample message fails with the "not found" error and plays nothing. -/
theorem startup_config_errors_fatal_witness :
    ((10 : Nat) > 9 ∧
      (start { volume := 10, select_station := false, no_logo := false } none
          (Except.error "no device") [sampleMessage]).2 =
        some "Volume must be between 0 and 9") ∧
    ((5 : Nat) ≤ 9 ∧
      (get_stations_from_api_message sampleMessage).find?
          (fun r => decide (r.id = (99 : Int))) = none ∧
      (start { volume := 5, select_station := true, no_logo := false }
          (some { id := 99, name := "x", url := "xu" })
          (Except.error "no device") [sampleMessage]).2 =
        some ("Station with ID \"99\" not found") ∧
      (start { volume := 5, select_station := true, no_logo := false }
          (some { id := 99, name := "x", url := "xu" })
          (Except.error "no device") [sampleMessage]).1.played = []) := by
  have hfind : (get_stations_from_api_message sampleMessage).find?
      (fun r => decide (r.id = ((99 : Int)))) = none := by
    rw [get_stations_sampleMessage]
    rfl
  have h := (startup_config_errors_fatal
    { volume := 5, select_station := true, no_logo := false } none
    (Except.error "no device") [sampleMessage]
    { id := 99, name := "x", url := "xu" } sampleMessage []).2
    (by norm_num) rfl hfind
  refine ⟨⟨by norm_num, ?_⟩, by norm_num, hfind, h.1, h.2⟩
  exact ((startup_config_errors_fatal
    { volume := 10, select_station := false, no_logo := false } none
    (Except.error "no device") [sampleMessage]
    { id := 99, name := "x", url := "xu" } sampleMessage []).1
    (by norm_num)).1

/-- With no audio player, the loop (with any selection outcome pending) never
plays and the player stays absent. -/
theorem start_playing_loop_player_none (selected : Option Remote)
    (msgs : List CodeRadioMessage) :
    ∀ lu d pd,
      (start_playing_loop selected msgs
          { listen_url := lu, display := d, player := none,
            played := pd }).1.player = none ∧
      (start_playing_loop selected msgs
          { listen_url := lu, display := d, player := none,
            played := pd }).1.played = pd := by
  induction msgs with
  | nil => exact fun lu d pd => ⟨rfl, rfl⟩
  | cons m rest ih =>
    intro lu d pd
    cases lu with
    | some u =>
      rw [start_playing_loop, start_playing_step_after]
      exact ih (some u)
        (update_song_info_on_screen ((none : Option Player).map Player.volume)
          m d).1 pd
    | none =>
      cases selected with
      | none =>
        rw [start_playing_loop, start_playing_step_first]
        exact ih (some m.station.listen_url) _ pd
      | some station =>
        rcases hfind : (get_stations_from_api_message m).find?
            (fun r => decide (r.id = station.id)) with _ | s
        · rw [start_playing_loop,
            start_playing_step_first_notfound station m _ _ _ hfind]
          exact ⟨rfl, rfl⟩
        · rw [start_playing_loop,
            start_playing_step_first_selected station s m _ _ _ hfind]
          exact ih (some s.url) _ pd

/-- With no audio player and no selection, the loop just advances the display
and never fails. -/
theorem start_playing_loop_no_player (msgs : List CodeRadioMessage) :
    ∀ lu d pd,
      (start_playing_loop none msgs
          { listen_url := lu, display := d, player := none,
            played := pd }).2 = none ∧
      (start_playing_loop none msgs
          { listen_url := lu, display := d, player := none,
            played := pd }).1.display = display_run none msgs d := by
  induction msgs with
  | nil => exact fun lu d pd => ⟨rfl, rfl⟩
  | cons m rest ih =>
    intro lu d pd
    cases lu with
    | some u =>
      rw [start_playing_loop, start_playing_step_after]
      exact ih (some u) (update_song_info_on_screen none m d).1 pd
    | none =>
      rw [start_playing_loop, start_playing_step_first]
      exact ih (some m.station.listen_url)
        (update_song_info_on_screen none m d).1 pd

/-- C7: audio-device failure is non-fatal. When `Player::try_new` fails the
run continues: the global player stays `none` and nothing is ever played
(whatever the selection); with no selection the loop never fails and the
song-info display advances exactly as it would (with the volume shown as
unknown); a keyboard digit with no player is silently skipped; the volume
prefix renders as "Volume */9". -/
theorem audio_device_failure_nonfatal (args : Args)
    (selected_station : Option Remote) (e : String)
    (msgs : List CodeRadioMessage) (c : Char) (pb : Option ProgressBarModel) :
    ((start_playing args selected_station (Except.error e) msgs).1.player =
      none) ∧
    ((start_playing args selected_station (Except.error e) msgs).1.played =
      []) ∧
    (args.select_station = false →
      (start_playing args selected_station (Except.error e) msgs).2 = none ∧
      (start_playing args selected_station (Except.error e) msgs).1.display =
        display_run none msgs initialDisplay) ∧
    (handle_keyboard_key c none pb = (none, pb)) ∧
    ( get_progress_bar_prefix none = "Volume */9") := by
  refine ⟨?_, ?_, ?_, ?_, rfl⟩
  · exact (start_playing_loop_player_none _ msgs none initialDisplay []).1
  · exact (start_playing_loop_player_none _ msgs none initialDisplay []).2
  · intro hsel
    unfold start_playing
    rw [hsel]
    exact ⟨(start_playing_loop_no_player msgs none initialDisplay []).1,
      (start_playing_loop_no_player msgs none initialDisplay []).2⟩
  · unfold handle_keyboard_key
    rcases char_to_digit c with _ | n <;> rfl

/-- Witness for C7: with the device failing, running on the sample messages
with no selection keeps the player absent, plays nothing, does not fail, and
still advances the display. -/
theorem audio_device_failure_nonfatal_witness :
    ({ volume := 5, select_station := false,
        no_logo := false : Args }.select_station = false) ∧
    ((start_playing { volume := 5, select_station := false, no_logo := false }
        none (Except.error "no device") [sampleMessage]).1.player = none ∧
      (start_playing { volume := 5, select_station := false, no_logo := false }
        none (Except.error "no device") [sampleMessage]).2 = none) := by
  refine ⟨rfl, ?_, ?_⟩
  · exact (audio_device_failure_nonfatal
      { volume := 5, select_station := false, no_logo := false } none
      "no device" [sampleMessage] 'a' none).1
  · exact ((audio_device_failure_nonfatal
      { volume := 5, select_station := false, no_logo := false } none
      "no device" [sampleMessage] 'a' none).2.2.1 rfl).1

/-- C8: the volume-to-gain mapping is monotonic and deterministic. For levels
`a < b` in `[0, 9]` the gain of `a` is at most the gain of `b` (in fact
strictly below), level 0 gives the minimum gain and level 9 the maximum over
the range, and equal levels give equal gains. -/
theorem volume_gain_monotonic :
    (∀ a b : Nat, a < b → b ≤ 9 → volume_to_gain a ≤ volume_to_gain b) ∧
    (∀ a b : Nat, a < b → b ≤ 9 → volume_to_gain a < volume_to_gain b) ∧
    (∀ l : Nat, l ≤ 9 →
      volume_to_gain 0 ≤ volume_to_gain l ∧
      volume_to_gain l ≤ volume_to_gain 9) ∧
    (∀ a b : Nat, a = b → volume_to_gain a = volume_to_gain b) := by
  have hmono : ∀ a b : Nat, a < b → volume_to_gain a < volume_to_gain b := by
    intro a b hab
    unfold volume_to_gain
    have hcast : (a : Rat) < (b : Rat) := by exact_mod_cast hab
    have h9 : (0 : Rat) < 9 := by norm_num
    exact div_lt_div_of_pos_right hcast h9
  have hmono_le : ∀ a b : Nat, a ≤ b → volume_to_gain a ≤ volume_to_gain b := by
    intro a b hab
    rcases Nat.lt_or_ge a b with h | h
    · exact (hmono a b h).le
    · have : a = b := le_antisymm hab h
      rw [this]
  refine ⟨fun a b hab _ => (hmono a b hab).le, fun a b hab _ => hmono a b hab,
    ?_, fun a b hab => by rw [hab]⟩
  intro l hl
  exact ⟨hmono_le 0 l (Nat.zero_le l), hmono_le l 9 hl⟩

/-- Witness for C8: level 3 gains strictly less than level 7, and level 5 sits
between the gains of levels 0 and 9. -/
theorem volume_gain_monotonic_witness :
    ((3 : Nat) < 7 ∧ (7 : Nat) ≤ 9 ∧ volume_to_gain 3 < volume_to_gain 7) ∧
    ((5 : Nat) ≤ 9 ∧ volume_to_gain 0 ≤ volume_to_gain 5 ∧
      volume_to_gain 5 ≤ volume_to_gain 9) := by
  refine ⟨⟨by norm_num, by norm_num, ?_⟩, by norm_num, ?_, ?_⟩
  · exact volume_gain_monotonic.2.1 3 7 (by norm_num) (by norm_num)
  · exact (volume_gain_monotonic.2.2.1 5 (by norm_num)).1
  · exact (volume_gain_monotonic.2.2.1 5 (by norm_num)).2

/-- C9: a keyboard volume change equal to the current level is a no-op:
neither `set_volume` nor the prefix update runs, leaving player and bar
unchanged; a differing digit sets the volume and refreshes the displayed
prefix. -/
theorem keyboard_volume_noop (c : Char) (p : Player)
    (pb : Option ProgressBarModel) (n : Nat)
    (h : char_to_digit c = some n) :
    (p.volume = n → handle_keyboard_key c (some p) pb = (some p, pb)) ∧
    (p.volume ≠ n →
      (handle_keyboard_key c (some p) pb).1 = some (p.set_volume n) ∧
      (∀ bar, pb = some bar →
        (handle_keyboard_key c (some p) pb).2 =
          some { bar with preffix := get_progress_bar_prefix (some n) }) ∧
      (pb = none → (handle_keyboard_key c (some p) pb).2 = none)) := by
  constructor
  · intro heq
    simp [handle_keyboard_key, h, heq]
  · intro hne
    refine ⟨?_, ?_, ?_⟩
    · simp [handle_keyboard_key, h, hne]
    · intro bar hbar
      simp [handle_keyboard_key, h, hne, hbar]
    · intro hbar
      simp [handle_keyboard_key, h, hne, hbar]

/-- Witness for C9: pressing '5' with the player already at volume 5 changes
nothing; pressing '7' sets the volume to 7 and refreshes the prefix. -/
theorem keyboard_volume_noop_witness :
    (char_to_digit '5' = some 5 ∧
      handle_keyboard_key '5' (some { volume := 5, playing := none })
        (some sampleBar) =
        (some { volume := 5, playing := none }, some sampleBar)) ∧
    (char_to_digit '7' = some 7 ∧
      (handle_keyboard_key '7' (some { volume := 5, playing := none })
          (some sampleBar)).1 =
        some ({ volume := 5, playing := none : Player }.set_volume 7) ∧
      (handle_keyboard_key '7' (some { volume := 5, playing := none })
          (some sampleBar)).2 =
        some { sampleBar with
          preffix := get_progress_bar_prefix (some 7) }) := by
  refine ⟨⟨by decide, ?_⟩, by decide, ?_, ?_⟩
  · exact (keyboard_volume_noop '5' { volume := 5, playing := none }
      (some sampleBar) 5 (by decide)).1 rfl
  · exact ((keyboard_volume_noop '7' { volume := 5, playing := none }
      (some sampleBar) 7 (by decide)).2 (by decide)).1
  · exact (((keyboard_volume_noop '7' { volume := 5, playing := none }
      (some sampleBar) 7 (by decide)).2 (by decide)).2.1 sampleBar rfl)

end CodeRadio
